import Mathlib

/-!
Verification of the cayley-dickson hypercomplex number library.

The repository defines three templated value types in two headers:
`complex<T>` and `octonion<T>` in src/complex.h, and `quaternion<T>` in
src/quaternions.h. Each is embedded below as a Lean structure over a
scalar type `α`, with every arithmetic operation translated from the
corresponding C++ member function. Operations that the C++ writes with
`std::sqrt` are modelled over `ℝ` with `Real.sqrt`; the other operations
are kept parametric so they stay executable over `ℚ` and `ℤ`.
-/

namespace Stephan

/-- `complex<T>` from src/complex.h lines 40-127: a real part, an imaginary
part, and an output-format flag. The C++ member is named
use_electric_syntax; here it is called `use_electric`. -/
structure complex (α : Type) where
  real_part : α
  imaginary_part : α
  use_electric : Bool
deriving DecidableEq

/-- The two-argument constructor call `complex(r, i)` used throughout the
arithmetic operations: the format flag defaults to `false`. -/
def complex.mk2 {α : Type} (r i : α) : complex α := ⟨r, i, false⟩

/-- `complex<T>::Re()` (line 58). -/
def complex.Re {α : Type} (z : complex α) : α := z.real_part

/-- `complex<T>::Im()` (line 59). -/
def complex.Im {α : Type} (z : complex α) : α := z.imaginary_part

/-- `complex<T>::operator==` (lines 67-69): componentwise equality of the
real and imaginary parts; the format flag is not compared. -/
def complex.eqb {α : Type} [DecidableEq α] (a b : complex α) : Bool :=
  (a.real_part == b.real_part) && (a.imaginary_part == b.imaginary_part)

/-- `complex<T>::conjugate()` (line 73). -/
def complex.conjugate {α : Type} [Neg α] (z : complex α) : complex α :=
  complex.mk2 z.real_part (-z.imaginary_part)

/-- `complex<T>::operator+(const complex&)` (lines 76-78). -/
def complex.add {α : Type} [Add α] (z rhs : complex α) : complex α :=
  complex.mk2 (z.real_part + rhs.real_part) (z.imaginary_part + rhs.imaginary_part)

/-- `complex<T>::operator+(const T&)` (lines 79-81). -/
def complex.addScalar {α : Type} [Add α] (z : complex α) (value : α) : complex α :=
  complex.mk2 (z.real_part + value) z.imaginary_part

/-- `complex<T>::operator-(const complex&)` (lines 82-84). -/
def complex.sub {α : Type} [Sub α] (z rhs : complex α) : complex α :=
  complex.mk2 (z.real_part - rhs.real_part) (z.imaginary_part - rhs.imaginary_part)

/-- `complex<T>::operator-(const T&)` (lines 85-87). -/
def complex.subScalar {α : Type} [Sub α] (z : complex α) (value : α) : complex α :=
  complex.mk2 (z.real_part - value) z.imaginary_part

/-- `complex<T>::operator*(const complex&)` (lines 90-93). -/
def complex.mul {α : Type} [Add α] [Sub α] [Mul α] (z rhs : complex α) : complex α :=
  complex.mk2 (z.real_part * rhs.real_part - z.imaginary_part * rhs.imaginary_part)
    (z.real_part * rhs.imaginary_part + z.imaginary_part * rhs.real_part)

/-- `complex<T>::operator*(const T&)` (lines 94-96). -/
def complex.mulScalar {α : Type} [Mul α] (z : complex α) (value : α) : complex α :=
  complex.mk2 (z.real_part * value) (z.imaginary_part * value)

/-- `complex<T>::operator/(const complex&)` (lines 99-105): division by the
squared norm of the right-hand operand; the static_assert restricting T to
floating point is modelled by requiring a `Field`. -/
def complex.div {α : Type} [Field α] (z rhs : complex α) : complex α :=
  let divisor := rhs.real_part * rhs.real_part + rhs.imaginary_part * rhs.imaginary_part
  let real_numerator := z.real_part * rhs.real_part + z.imaginary_part * rhs.imaginary_part
  let imaginary_numerator := z.imaginary_part * rhs.real_part - z.real_part * rhs.imaginary_part
  complex.mk2 (real_numerator / divisor) (imaginary_numerator / divisor)

/-- `complex<T>::operator/(const T&)` (lines 106-108). -/
def complex.divScalar {α : Type} [Div α] (z : complex α) (value : α) : complex α :=
  complex.mk2 (z.real_part / value) (z.imaginary_part / value)

/-- `complex<T>::norm()` (lines 118-120), over `ℝ`. -/
noncomputable def complex.norm (z : complex ℝ) : ℝ :=
  Real.sqrt (z.real_part * z.real_part + z.imaginary_part * z.imaginary_part)

/-- `complex<T>::sqrt()` (lines 111-117), over `ℝ`. The C++ sign test
`std::signbit(imaginary_part)` is modelled as `imaginary_part < 0`; the
floating-point negative zero has no counterpart in `ℝ`. -/
noncomputable def complex.sqrt (z : complex ℝ) : complex ℝ :=
  let common := Real.sqrt (z.real_part * z.real_part + z.imaginary_part * z.imaginary_part)
  let gamma := Real.sqrt ((z.real_part + common) / 2)
  let sign_bit : ℝ := if z.imaginary_part < 0 then -1 else 1
  let delta := sign_bit * Real.sqrt ((-z.real_part + common) / 2)
  complex.mk2 gamma delta

/-- Scalar-on-left addition `T::operator+(const complex<T>&)`
(lines 134-137): `complex(value.Re() + *this, value.Im())`. -/
def complex.scalar_add {α : Type} [Add α] (s : α) (value : complex α) : complex α :=
  complex.mk2 (value.Re + s) value.Im

/-- Scalar-on-left subtraction `T::operator-(const complex<T>&)`
(lines 138-141): `complex(*this - value.Re(), -value.Im())`. -/
def complex.scalar_sub {α : Type} [Sub α] [Neg α] (s : α) (value : complex α) : complex α :=
  complex.mk2 (s - value.Re) (-value.Im)

/-- `quaternion<T>` from src/quaternions.h lines 46-130: real, i, j and k
components. -/
structure quaternion (α : Type) where
  real_part : α
  i_part : α
  j_part : α
  k_part : α
deriving DecidableEq

/-- `quaternion<T>::Re()` (line 66). -/
def quaternion.Re {α : Type} (q : quaternion α) : α := q.real_part

/-- `quaternion<T>::Im1()` (line 67). -/
def quaternion.Im1 {α : Type} (q : quaternion α) : α := q.i_part

/-- `quaternion<T>::Im2()` (line 68). -/
def quaternion.Im2 {α : Type} (q : quaternion α) : α := q.j_part

/-- `quaternion<T>::Im3()` (line 69). -/
def quaternion.Im3 {α : Type} (q : quaternion α) : α := q.k_part

/-- `quaternion<T>::conjugate()` (line 81). -/
def quaternion.conjugate {α : Type} [Neg α] (q : quaternion α) : quaternion α :=
  ⟨q.real_part, -q.i_part, -q.j_part, -q.k_part⟩

/-- `quaternion<T>::operator+(const quaternion&)` (lines 84-87),
exactly as written: the k component is computed as
`this->k_part + rhs.j_part`, i.e. it adds the j component of the
right-hand operand into the k component of the result. -/
def quaternion.add {α : Type} [Add α] (p rhs : quaternion α) : quaternion α :=
  ⟨p.real_part + rhs.real_part, p.i_part + rhs.i_part,
    p.j_part + rhs.j_part, p.k_part + rhs.j_part⟩

/-- `quaternion<T>::operator+(const T&)` (lines 88-90). -/
def quaternion.addScalar {α : Type} [Add α] (q : quaternion α) (value : α) : quaternion α :=
  ⟨q.real_part + value, q.i_part, q.j_part, q.k_part⟩

/-- `quaternion<T>::operator-(const quaternion&)` (lines 91-94). -/
def quaternion.sub {α : Type} [Sub α] (p rhs : quaternion α) : quaternion α :=
  ⟨p.real_part - rhs.real_part, p.i_part - rhs.i_part,
    p.j_part - rhs.j_part, p.k_part - rhs.k_part⟩

/-- `quaternion<T>::operator-(const T&)` (lines 95-97). -/
def quaternion.subScalar {α : Type} [Sub α] (q : quaternion α) (value : α) : quaternion α :=
  ⟨q.real_part - value, q.i_part, q.j_part, q.k_part⟩

/-- `quaternion<T>::operator*(const quaternion&)` (lines 100-106): the
Hamilton product. -/
def quaternion.mul {α : Type} [Add α] [Sub α] [Mul α] (p rhs : quaternion α) : quaternion α :=
  ⟨p.real_part * rhs.real_part - p.i_part * rhs.i_part
      - p.j_part * rhs.j_part - p.k_part * rhs.k_part,
    p.real_part * rhs.i_part + p.i_part * rhs.real_part
      + p.j_part * rhs.k_part - p.k_part * rhs.j_part,
    p.real_part * rhs.j_part + p.j_part * rhs.real_part
      + p.k_part * rhs.i_part - p.i_part * rhs.k_part,
    p.real_part * rhs.k_part + p.k_part * rhs.real_part
      + p.i_part * rhs.j_part - p.j_part * rhs.i_part⟩

/-- `quaternion<T>::operator*(const T&)` (lines 107-110). -/
def quaternion.mulScalar {α : Type} [Mul α] (q : quaternion α) (value : α) : quaternion α :=
  ⟨q.real_part * value, q.i_part * value, q.j_part * value, q.k_part * value⟩

/-- `quaternion<T>::operator/(const T&)` (lines 126-129). -/
def quaternion.divScalar {α : Type} [Div α] (q : quaternion α) (value : α) : quaternion α :=
  ⟨q.real_part / value, q.i_part / value, q.j_part / value, q.k_part / value⟩

/-- `quaternion<T>::norm()` (lines 115-117), over `ℝ`. -/
noncomputable def quaternion.norm (q : quaternion ℝ) : ℝ :=
  Real.sqrt (q.real_part * q.real_part + q.i_part * q.i_part
    + q.j_part * q.j_part + q.k_part * q.k_part)

/-- `quaternion<T>::reciprocal()` (lines 118-122), exactly as written:
`base = norm(); base *= base; return (*this) / base`. The quaternion is
divided componentwise by the squared norm; no conjugation is applied. -/
noncomputable def quaternion.reciprocal (q : quaternion ℝ) : quaternion ℝ :=
  let base := q.norm
  let base2 := base * base
  q.divScalar base2

/-- `quaternion<T>::operator/(const quaternion&)` (lines 123-125):
`(*this) * rhs->reciprocal()`. -/
noncomputable def quaternion.div (p rhs : quaternion ℝ) : quaternion ℝ :=
  p.mul rhs.reciprocal

/-- `octonion<T>` from src/complex.h, second part: a two component type
with only real and imaginary members declared. -/
structure octonion (α : Type) where
  real_part : α
  imaginary_part : α
deriving DecidableEq

/-- `octonion<T>::Re()`. -/
def octonion.Re {α : Type} (o : octonion α) : α := o.real_part

/-- `octonion<T>::Im()`. -/
def octonion.Im {α : Type} (o : octonion α) : α := o.imaginary_part

/-- `octonion<T>::conjugate()`. -/
def octonion.conjugate {α : Type} [Neg α] (o : octonion α) : octonion α :=
  ⟨o.real_part, -o.imaginary_part⟩

/-- `octonion<T>::operator+(const octonion&)`. -/
def octonion.add {α : Type} [Add α] (o rhs : octonion α) : octonion α :=
  ⟨o.real_part + rhs.real_part, o.imaginary_part + rhs.imaginary_part⟩

/-- `octonion<T>::operator+(const T&)`. -/
def octonion.addScalar {α : Type} [Add α] (o : octonion α) (value : α) : octonion α :=
  ⟨o.real_part + value, o.imaginary_part⟩

/-- `octonion<T>::operator-(const octonion&)`. -/
def octonion.sub {α : Type} [Sub α] (o rhs : octonion α) : octonion α :=
  ⟨o.real_part - rhs.real_part, o.imaginary_part - rhs.imaginary_part⟩

/-- `octonion<T>::operator-(const T&)`. -/
def octonion.subScalar {α : Type} [Sub α] (o : octonion α) (value : α) : octonion α :=
  ⟨o.real_part - value, o.imaginary_part⟩

/-- `octonion<T>::operator*(const octonion&)`. The source line has
unbalanced parentheses; its subexpressions give the complex-style product
(ac - bd, ad + bc), which is what is modelled here. -/
def octonion.mul {α : Type} [Add α] [Sub α] [Mul α] (o rhs : octonion α) : octonion α :=
  ⟨o.real_part * rhs.real_part - o.imaginary_part * rhs.imaginary_part,
    o.real_part * rhs.imaginary_part + o.imaginary_part * rhs.real_part⟩

/-- `octonion<T>::operator*(const T&)`. -/
def octonion.mulScalar {α : Type} [Mul α] (o : octonion α) (value : α) : octonion α :=
  ⟨o.real_part * value, o.imaginary_part * value⟩

/-- `octonion<T>::operator/(const octonion&)`, exactly as written: the
divisor is the squared norm of `this` (the LEFT operand), and the
imaginary numerator is `rhs.imaginary_part * this->real_part -
rhs.real_part * this->imaginary_part`. -/
def octonion.div {α : Type} [Field α] (o rhs : octonion α) : octonion α :=
  let divisor := o.real_part * o.real_part + o.imaginary_part * o.imaginary_part
  let real_numerator := o.real_part * rhs.real_part + o.imaginary_part * rhs.imaginary_part
  let imaginary_numerator := rhs.imaginary_part * o.real_part - rhs.real_part * o.imaginary_part
  ⟨real_numerator / divisor, imaginary_numerator / divisor⟩

/-- `octonion<T>::operator/(const T&)`. -/
def octonion.divScalar {α : Type} [Div α] (o : octonion α) (value : α) : octonion α :=
  ⟨o.real_part / value, o.imaginary_part / value⟩

end Stephan

namespace Stephan

/-- Claim C1, code evaluation: at q = (0,1,0,0), whose squared norm is 1,
the reciprocal computed by the code is (0,1,0,0) itself, so its i component
is +1 and not the negated component -1/(0^2+1^2+0^2+0^2) = -1 that the
claim (conjugate divided by the squared norm) requires. -/
theorem quaternion_reciprocal_omits_conjugation :
    quaternion.reciprocal ⟨0, 1, 0, 0⟩ = (⟨0, 1, 0, 0⟩ : quaternion ℝ) ∧
    (quaternion.reciprocal (⟨0, 1, 0, 0⟩ : quaternion ℝ)).Im1 ≠
      -1 / ((0 : ℝ) ^ 2 + 1 ^ 2 + 0 ^ 2 + 0 ^ 2) := by
  have hnorm : (⟨0, 1, 0, 0⟩ : quaternion ℝ).norm = 1 := by
    simp [quaternion.norm]
  have hrec : quaternion.reciprocal ⟨0, 1, 0, 0⟩ = (⟨0, 1, 0, 0⟩ : quaternion ℝ) := by
    simp [quaternion.reciprocal, hnorm, quaternion.divScalar]
  refine ⟨hrec, ?_⟩
  rw [hrec]
  norm_num [quaternion.Im1]

/-- Claim C2, code evaluation: adding p = (0,0,0,0) and q = (0,0,1,0), the
code produces (0,0,1,1): the k component of the sum is p.k + q.j = 1 and
not p.k + q.k = 0 as the claim requires. -/
theorem quaternion_add_k_takes_rhs_j :
    quaternion.add (⟨0, 0, 0, 0⟩ : quaternion ℤ) ⟨0, 0, 1, 0⟩ = ⟨0, 0, 1, 1⟩ ∧
    (quaternion.add (⟨0, 0, 0, 0⟩ : quaternion ℤ) ⟨0, 0, 1, 0⟩).Im3 ≠ (0 : ℤ) + 0 := by
  decide

/-- Claim C3, code evaluation: quaternion addition is not commutative;
adding (0,0,0,0) and (0,0,1,0) in the two orders yields different k
components, because the k component of a sum takes the j component of the
right-hand operand. -/
theorem quaternion_add_not_commutative :
    quaternion.add (⟨0, 0, 0, 0⟩ : quaternion ℤ) ⟨0, 0, 1, 0⟩ ≠
      quaternion.add ⟨0, 0, 1, 0⟩ ⟨0, 0, 0, 0⟩ := by
  decide

/-- Claim C4, code evaluation: octonion division of (1,0) by (0,1) yields
(0,1), while complex division of the same operands yields (0,-1): the
octonion version divides by the squared norm of the left operand and
negates the imaginary numerator relative to the complex version. -/
theorem octonion_div_deviates_from_complex_div :
    octonion.div (⟨1, 0⟩ : octonion ℚ) ⟨0, 1⟩ = ⟨0, 1⟩ ∧
    complex.div (⟨1, 0, false⟩ : complex ℚ) ⟨0, 1, false⟩ = ⟨0, -1, false⟩ ∧
    (octonion.div (⟨1, 0⟩ : octonion ℚ) ⟨0, 1⟩).Im ≠
      (complex.div (⟨1, 0, false⟩ : complex ℚ) ⟨0, 1, false⟩).Im := by
  refine ⟨?_, ?_, ?_⟩ <;>
    simp [octonion.div, complex.div, complex.mk2, octonion.Im, complex.Im]
  norm_num

/-- Claim C5: complex division of (a,b) by (c,d) has real component
(a*c + b*d)/(c^2 + d^2) and imaginary component (b*c - a*d)/(c^2 + d^2),
and in particular (1,0)/(0,1) = (0,-1). -/
theorem complex_div_formula {α : Type} [Field α] (z w : complex α) :
    (z.div w).Re = (z.Re * w.Re + z.Im * w.Im) / (w.Re ^ 2 + w.Im ^ 2) ∧
    (z.div w).Im = (z.Im * w.Re - z.Re * w.Im) / (w.Re ^ 2 + w.Im ^ 2) ∧
    complex.div (⟨1, 0, false⟩ : complex ℚ) ⟨0, 1, false⟩ = ⟨0, -1, false⟩ := by
  refine ⟨?_, ?_, ?_⟩ <;>
    simp [complex.div, complex.mk2, complex.Re, complex.Im, pow_two]

/-- Claim C6: quaternion multiplication is the Hamilton product, component
by component, and in particular i * j = k while j * i = -k. -/
theorem quaternion_mul_is_hamilton_product {α : Type} [CommRing α] (p q : quaternion α) :
    (p.mul q).Re = p.Re * q.Re - p.Im1 * q.Im1 - p.Im2 * q.Im2 - p.Im3 * q.Im3 ∧
    (p.mul q).Im1 = p.Re * q.Im1 + p.Im1 * q.Re + p.Im2 * q.Im3 - p.Im3 * q.Im2 ∧
    (p.mul q).Im2 = p.Re * q.Im2 + p.Im2 * q.Re + p.Im3 * q.Im1 - p.Im1 * q.Im3 ∧
    (p.mul q).Im3 = p.Re * q.Im3 + p.Im3 * q.Re + p.Im1 * q.Im2 - p.Im2 * q.Im1 ∧
    quaternion.mul (⟨0, 1, 0, 0⟩ : quaternion ℤ) ⟨0, 0, 1, 0⟩ = ⟨0, 0, 0, 1⟩ ∧
    quaternion.mul (⟨0, 0, 1, 0⟩ : quaternion ℤ) ⟨0, 1, 0, 0⟩ = ⟨0, 0, 0, -1⟩ := by
  exact ⟨rfl, rfl, rfl, rfl, by decide, by decide⟩

/-- Claim C7: the complex principal square root returns gamma =
sqrt((a + norm)/2) as real component and delta = s * sqrt((-a + norm)/2)
as imaginary component, where s is -1 exactly when the imaginary part is
negative, and the real component of the result is nonnegative. -/
theorem complex_sqrt_principal_branch (z : complex ℝ) :
    z.sqrt.Re = Real.sqrt ((z.Re + z.norm) / 2) ∧
    z.sqrt.Im = (if z.Im < 0 then (-1 : ℝ) else 1) * Real.sqrt ((-z.Re + z.norm) / 2) ∧
    0 ≤ z.sqrt.Re := by
  have h1 : z.sqrt.Re = Real.sqrt ((z.Re + z.norm) / 2) := rfl
  refine ⟨h1, rfl, ?_⟩
  rw [h1]
  exact Real.sqrt_nonneg _

/-- Claim C8: adding or subtracting a bare scalar leaves every imaginary
component of a complex, quaternion or octonion operand unchanged. -/
theorem scalar_add_sub_touch_only_real {α : Type} [Add α] [Sub α]
    (z : complex α) (q : quaternion α) (o : octonion α) (s : α) :
    (z.addScalar s).Im = z.Im ∧ (z.subScalar s).Im = z.Im ∧
    (q.addScalar s).Im1 = q.Im1 ∧ (q.addScalar s).Im2 = q.Im2 ∧
    (q.addScalar s).Im3 = q.Im3 ∧
    (q.subScalar s).Im1 = q.Im1 ∧ (q.subScalar s).Im2 = q.Im2 ∧
    (q.subScalar s).Im3 = q.Im3 ∧
    (o.addScalar s).Im = o.Im ∧ (o.subScalar s).Im = o.Im :=
  ⟨rfl, rfl, rfl, rfl, rfl, rfl, rfl, rfl, rfl, rfl⟩

/-- Claim C10: scalar-on-left subtraction s - z yields (s - a, -b), the
true complex difference of (s, 0) and z, while scalar-on-left addition
s + z yields (s + a, b) with the imaginary component unchanged. -/
theorem scalar_left_sub_is_true_difference {α : Type} [Ring α]
    (s : α) (z : complex α) :
    complex.scalar_sub s z = complex.sub (complex.mk2 s 0) z ∧
    (complex.scalar_sub s z).Re = s - z.Re ∧
    (complex.scalar_sub s z).Im = -z.Im ∧
    (complex.scalar_add s z).Re = s + z.Re ∧
    (complex.scalar_add s z).Im = z.Im := by
  refine ⟨?_, rfl, rfl, ?_, rfl⟩
  · simp [complex.scalar_sub, complex.sub, complex.mk2, complex.Re, complex.Im]
  · simp [complex.scalar_add, complex.mk2, complex.Re, add_comm]

end Stephan
